import Mathlib

/-!
# Water flow meter: measurement, reporting and persistence core

A shallow embedding of `src/src/main.cpp` and `src/include/config.h`.

* `float` / `double` values are modelled by exact rationals (`ℚ`).
* `uint32_t` and `unsigned long` (32 bits on the ESP32-C6) are natural
  numbers; every subtraction and increment of the source is written with an
  explicit reduction modulo `2 ^ 32`.
* Each `millis()` call of the source is an explicit clock-reading argument.
* The globals and the function-local `static` variables of the source are the
  fields of one `State` record that is threaded through the functions.
* The polling functions are modelled as running without interruption by the
  pulse handler, so `pulseCount` has one value during a call.
* `abs` on floating-point operands is the absolute value `|x|`.
* `Serial` debug output has no effect on the state and is left out.
-/

namespace WaterFlow

/-! ## Configuration (`config.h`) -/

/-- `#define CALIBRATION_FACTOR 7.5` -/
def CALIBRATION_FACTOR : ℚ := 7.5

/-- `#define FLOW_CALC_INTERVAL 1000` (milliseconds). -/
def FLOW_CALC_INTERVAL : Nat := 1000

/-- `#define FLOW_IDLE_TIMEOUT 5000` (milliseconds). -/
def FLOW_IDLE_TIMEOUT : Nat := 5000

/-- `#define BATTERY_ENABLED false` -/
def BATTERY_ENABLED : Bool := false

/-- `#define FLOW_REPORT_INTERVAL 30` (seconds). -/
def FLOW_REPORT_INTERVAL : Nat := 30

/-- `#define FLOW_RATE_CHANGE_THRESHOLD 0.1` -/
def FLOW_RATE_CHANGE_THRESHOLD : ℚ := 0.1

/-- `#define VOLUME_MILESTONE 1.0` -/
def VOLUME_MILESTONE : ℚ := 1.0

/-- `#define BATTERY_CHANGE_THRESHOLD 5` -/
def BATTERY_CHANGE_THRESHOLD : Nat := 5

/-- `#define SAVE_THRESHOLD 1.0` -/
def SAVE_THRESHOLD : ℚ := 1.0

/-- `#define MAX_SAVE_INTERVAL 300000` (milliseconds). -/
def MAX_SAVE_INTERVAL : Nat := 300000

/-! ## Machine arithmetic -/

/-- Unsigned 32-bit subtraction `a - b`, wrapping modulo `2 ^ 32`. -/
def sub32 (a b : Nat) : Nat := (a + (4294967296 - b % 4294967296)) % 4294967296

/-- Unsigned 32-bit increment `a + 1`, wrapping modulo `2 ^ 32`. -/
def inc32 (a : Nat) : Nat := (a + 1) % 4294967296

/-! ## Durable storage -/

/-- Modelled from the spec: the `Preferences` key-value store of the platform
library, which is not among the sources. Each key the program uses is either
absent (`none`) or holds a value; a getter returns the stored value or the
default passed to it, a `put` stores the value under its key. `puts` counts
the `put` calls made so far, so that a write is visible even when it stores a
value equal to the one already held. -/
structure Preferences where
  totalVolume : Option ℚ
  totalPulses : Option Nat
  bootCount : Option Nat
  puts : Nat
deriving DecidableEq

/-- `prefs.getFloat("totalVolume", d)` -/
def Preferences.getFloat_totalVolume (p : Preferences) (d : ℚ) : ℚ :=
  p.totalVolume.getD d

/-- `prefs.getULong64("totalPulses", d)` -/
def Preferences.getULong64_totalPulses (p : Preferences) (d : Nat) : Nat :=
  p.totalPulses.getD d

/-- `prefs.getUInt("bootCount", d)` -/
def Preferences.getUInt_bootCount (p : Preferences) (d : Nat) : Nat :=
  p.bootCount.getD d

/-- `prefs.putFloat("totalVolume", v)` -/
def Preferences.putFloat_totalVolume (p : Preferences) (v : ℚ) : Preferences :=
  { p with totalVolume := some v, puts := p.puts + 1 }

/-- `prefs.putULong64("totalPulses", n)` -/
def Preferences.putULong64_totalPulses (p : Preferences) (n : Nat) : Preferences :=
  { p with totalPulses := some n, puts := p.puts + 1 }

/-- `prefs.putUInt("bootCount", n)` -/
def Preferences.putUInt_bootCount (p : Preferences) (n : Nat) : Preferences :=
  { p with bootCount := some n, puts := p.puts + 1 }

/-! ## Program state -/

/-- One report handed to the Zigbee transport by `sendFlowReport`. -/
structure Report where
  flowRate : ℚ
  totalVolume : ℚ
  batteryPercent : Nat
deriving DecidableEq

/-- The globals of `main.cpp` followed by the `static` locals of
`calculateFlow` and `shouldReportFlow`, and the list of reports that
`sendFlowReport` has passed on while connected. -/
structure State where
  pulseCount : Nat
  lastPulseTime : Nat
  flowRate : ℚ
  totalVolume : ℚ
  batteryPercent : Nat
  zigbeeConnected : Bool
  prefs : Preferences
  lastSavedVolume : ℚ
  lastSaveTime : Nat
  bootCount : Nat
  lastCheck : Nat
  lastPulseCount : Nat
  lastReportTime : Nat
  lastReportedFlow : ℚ
  lastReportedVolume : ℚ
  lastReportedBattery : Nat
  reports : List Report
deriving DecidableEq

/-- The values of the globals and statics given by their initialisers, with
an arbitrary durable store and connection flag. -/
def State.init (p : Preferences) (connected : Bool) : State :=
  { pulseCount := 0, lastPulseTime := 0, flowRate := 0, totalVolume := 0,
    batteryPercent := 100, zigbeeConnected := connected, prefs := p,
    lastSavedVolume := 0, lastSaveTime := 0, bootCount := 0,
    lastCheck := 0, lastPulseCount := 0,
    lastReportTime := 0, lastReportedFlow := 0, lastReportedVolume := 0,
    lastReportedBattery := 0, reports := [] }

/-! ## Flow sensor -/

/-- `pulseCounter()`: the interrupt handler; `now` is its `millis()` reading. -/
def pulseCounter (s : State) (now : Nat) : State :=
  { s with pulseCount := inc32 s.pulseCount, lastPulseTime := now }

/-- The value of `pulsesThisSecond` in `calculateFlow`. -/
def pulsesThisSecond (s : State) : Nat := sub32 s.pulseCount s.lastPulseCount

/-- The expression `(pulsesThisSecond / CALIBRATION_FACTOR) * 60.0`; its
argument is the pulse count after conversion to floating point. -/
def flowRateOf (pulses : ℚ) : ℚ := (pulses / CALIBRATION_FACTOR) * 60

/-- The expression `pulsesThisSecond / (CALIBRATION_FACTOR * 60.0)`, the value
of `volumeThisSecond`. -/
def volumeThisSecond (pulses : ℚ) : ℚ := pulses / (CALIBRATION_FACTOR * 60)

/-- The condition `now - lastCheck >= FLOW_CALC_INTERVAL` of `calculateFlow`. -/
def intervalElapsed (s : State) (now : Nat) : Prop :=
  sub32 now s.lastCheck ≥ FLOW_CALC_INTERVAL

instance (s : State) (now : Nat) : Decidable (intervalElapsed s now) := by
  unfold intervalElapsed; infer_instance

/-- `calculateFlow()`; `now` is its `millis()` reading. -/
def calculateFlow (s : State) (now : Nat) : State :=
  if intervalElapsed s now then
    let s1 : State :=
      if pulsesThisSecond s > 0 then
        { s with
          flowRate := flowRateOf (pulsesThisSecond s)
          totalVolume := s.totalVolume + volumeThisSecond (pulsesThisSecond s) }
      else if sub32 now s.lastPulseTime > FLOW_IDLE_TIMEOUT then
        { s with flowRate := 0 }
      else s
    { s1 with lastPulseCount := s.pulseCount, lastCheck := now }
  else s

/-! ## Data persistence -/

/-- `loadTotalVolume()`. The value read from `totalPulses` is only printed. -/
def loadTotalVolume (s : State) : State :=
  let totalVolume := s.prefs.getFloat_totalVolume 0
  let bootCount := inc32 (s.prefs.getUInt_bootCount 0)
  { s with
    totalVolume := totalVolume
    bootCount := bootCount
    prefs := s.prefs.putUInt_bootCount bootCount
    lastSavedVolume := totalVolume }

/-- `saveTotalVolume()`; `t` is its `millis()` reading. -/
def saveTotalVolume (s : State) (t : Nat) : State :=
  { s with
    prefs := (s.prefs.putFloat_totalVolume s.totalVolume).putULong64_totalPulses s.pulseCount
    lastSavedVolume := s.totalVolume
    lastSaveTime := t }

/-- `periodicSave()`; `now` is its own `millis()` reading, `t1` and `t2` are
the readings made by the first and the second `saveTotalVolume()` call, when
they are reached. -/
def periodicSave (s : State) (now t1 t2 : Nat) : State :=
  let s1 : State :=
    if |s.totalVolume - s.lastSavedVolume| ≥ SAVE_THRESHOLD then saveTotalVolume s t1 else s
  if sub32 now s1.lastSaveTime > MAX_SAVE_INTERVAL then saveTotalVolume s1 t2 else s1

/-! ## Reporting -/

/-- `sendFlowReport(flowRate, totalVolume, batteryPercent)`: returns at once
when not connected. When connected the source prints the report and leaves the
transport call itself as a TODO; that hand-off is recorded in `reports`. -/
def sendFlowReport (s : State) (flowRate totalVolume : ℚ) (batteryPercent : Nat) : State :=
  if !s.zigbeeConnected then s
  else { s with reports := s.reports ++ [⟨flowRate, totalVolume, batteryPercent⟩] }

/-- The value of the local `shouldReport` of `shouldReportFlow` when the final
`if (shouldReport)` is reached. The battery rule is present only when
`BATTERY_ENABLED`; its operands are promoted to `int` before subtraction. -/
def shouldReport (s : State) (currentFlow currentVolume : ℚ) (currentBattery now : Nat) :
    Bool :=
  let r0 := false
  let r1 := if sub32 now s.lastReportTime > FLOW_REPORT_INTERVAL * 1000 then true else r0
  let r2 :=
    if |currentFlow - s.lastReportedFlow| > s.lastReportedFlow * FLOW_RATE_CHANGE_THRESHOLD
    then true else r1
  let r3 := if |currentVolume - s.lastReportedVolume| ≥ VOLUME_MILESTONE then true else r2
  if BATTERY_ENABLED then
    if ((currentBattery : Int) - (s.lastReportedBattery : Int)).natAbs
        ≥ BATTERY_CHANGE_THRESHOLD then true else r3
  else r3

/-- `shouldReportFlow(currentFlow, currentVolume, currentBattery)`; `now` is
its `millis()` reading. Returns the result and the state after the call. -/
def shouldReportFlow (s : State) (currentFlow currentVolume : ℚ)
    (currentBattery now : Nat) : Bool × State :=
  if shouldReport s currentFlow currentVolume currentBattery now then
    let s1 := sendFlowReport s currentFlow currentVolume currentBattery
    (true, { s1 with
      lastReportedFlow := currentFlow
      lastReportedVolume := currentVolume
      lastReportedBattery := currentBattery
      lastReportTime := now })
  else (false, s)

/-! ## Main loop -/

/-- The clock readings made during one `loop()` pass. -/
structure LoopClock where
  tCalc : Nat
  tSave : Nat
  tSave1 : Nat
  tSave2 : Nat
  tReport : Nat

/-- `loop()`, restricted to the steps that touch the modelled state: the flow
calculation, the periodic save and, when connected, the report decision. The
battery step is compiled out (`BATTERY_ENABLED` is false); the LED and status
steps do not touch the modelled state. -/
def loop (s : State) (c : LoopClock) : State :=
  let s1 := calculateFlow s c.tCalc
  let s2 := periodicSave s1 c.tSave c.tSave1 c.tSave2
  if s2.zigbeeConnected then
    (shouldReportFlow s2 s2.flowRate s2.totalVolume s2.batteryPercent c.tReport).2
  else s2

/-! ## Sequences of operations -/

/-- One operation performed after startup, with the clock readings and
arguments it uses: a pulse interrupt, one of the three polling functions
called on its own, or a whole pass of `loop()`. -/
inductive Op where
  | pulse (now : Nat)
  | calculateFlow (now : Nat)
  | periodicSave (now t1 t2 : Nat)
  | shouldReportFlow (currentFlow currentVolume : ℚ) (currentBattery now : Nat)
  | loop (c : LoopClock)

/-- The state after one operation. -/
def step (s : State) : Op → State
  | .pulse now => pulseCounter s now
  | .calculateFlow now => calculateFlow s now
  | .periodicSave now t1 t2 => periodicSave s now t1 t2
  | .shouldReportFlow f v b now => (shouldReportFlow s f v b now).2
  | .loop c => loop s c

/-- The state after a sequence of operations, performed from left to right. -/
def run (s : State) (ops : List Op) : State := ops.foldl step s

/-- Conversion of a non-negative floating-point value to `uint32_t`, as in the
initialisation `uint32_t pulsesPerSecond = 37.5`: the fractional part is
discarded. -/
def toUInt32 (x : ℚ) : Nat := ⌊x⌋.toNat % 4294967296

/-- The value of `expectedFlowRate` in `test_flow_rate_calculation_basic`
(`test_flow_calculation.cpp`): the initialiser `x` is stored in the
`uint32_t pulsesPerSecond`, then `(pulsesPerSecond / CALIBRATION_FACTOR) * 60.0`
is computed, the same expression as in `calculateFlow`. -/
def expectedFlowRate (x : ℚ) : ℚ := flowRateOf (toUInt32 x)

/-- The value of `volumePerSecond` in `test_volume_accumulation`
(`test_flow_calculation.cpp`): the initialiser `x` is stored in the
`uint32_t pulsesPerSecond`, then `pulsesPerSecond / (CALIBRATION_FACTOR * 60.0)`
is computed, the same expression as `volumeThisSecond` in `calculateFlow`. -/
def volumePerSecond (x : ℚ) : ℚ := volumeThisSecond (toUInt32 x)

/-- The pulse handler invoked once for each clock reading of `times`, in order. -/
def pulseCounterTimes (s : State) (times : List Nat) : State :=
  times.foldl pulseCounter s

/-- One `calculateFlow()` tick at which the pulse counter is observed to hold
`count`: the counter has that value throughout the call. -/
def tick (s : State) (count now : Nat) : State :=
  calculateFlow { s with pulseCount := count } now

/-- A sequence of ticks, each given by the counter value observed and the
clock reading. -/
def ticks (s : State) : List (Nat × Nat) → State
  | [] => s
  | (count, now) :: rest => ticks (tick s count now) rest

/-- Every tick of the sequence passes the interval gate, and the counter values
observed are 32-bit values that never fall below the previous-count memory
(the counter does not decrease and does not wrap). -/
def ticksPass (s : State) : List (Nat × Nat) → Prop
  | [] => True
  | (count, now) :: rest =>
      intervalElapsed s now ∧ s.lastPulseCount ≤ count ∧ count < 4294967296 ∧
      ticksPass (tick s count now) rest

/-- Consecutive `loop()` passes, one for each set of clock readings. -/
def loops (s : State) (cs : List LoopClock) : State := cs.foldl loop s

/-- The report bookkeeping: `lastReportTime`, `lastReportedFlow`,
`lastReportedVolume` and `lastReportedBattery`. -/
def reportState (s : State) : Nat × ℚ × ℚ × Nat :=
  (s.lastReportTime, s.lastReportedFlow, s.lastReportedVolume, s.lastReportedBattery)

/-- Something that happens between or during polling cycles: a whole `loop()`
pass, a pulse interrupt, or the transport changing the connection flag. -/
inductive Event where
  | loop (c : LoopClock)
  | pulse (now : Nat)
  | connection (connected : Bool)

/-- The state after one event. -/
def Event.apply (s : State) : Event → State
  | .loop c => WaterFlow.loop s c
  | .pulse now => pulseCounter s now
  | .connection connected => { s with zigbeeConnected := connected }

/-- The state after a sequence of events, in order. -/
def runEvents (s : State) (es : List Event) : State := es.foldl Event.apply s

/-- The report baseline is the content of the last report handed to the
transport, when there is one. -/
def baselineIsLastReport (s : State) : Prop :=
  ∀ r : Report, s.reports.getLast? = some r →
    s.lastReportedFlow = r.flowRate ∧ s.lastReportedVolume = r.totalVolume ∧
    s.lastReportedBattery = r.batteryPercent

/-! ## Concrete states used as examples -/

/-- An empty durable store. -/
def emptyPrefs : Preferences :=
  { totalVolume := none, totalPulses := none, bootCount := none, puts := 0 }

/-- The state after the initialisers with an empty store, not connected, in
which `n` pulses have been counted. -/
def pulsesCounted (n : Nat) : State :=
  { State.init emptyPrefs false with pulseCount := n }

/-- The state after the initialisers with an empty store, not connected. -/
def idleDisconnected : State := State.init emptyPrefs false

/-- A durable store holding volume `v`, pulse total `n` and boot count `b`. -/
def storedRecord (v : ℚ) (n b : Nat) : Preferences :=
  { totalVolume := some v, totalPulses := some n, bootCount := some b, puts := 0 }

/-- A state with prior flow rate 12 in which the last pulse came at time
`lastPulse` and no pulse has been counted since the previous tick. -/
def noNewPulses (lastPulse : Nat) : State :=
  { State.init emptyPrefs false with flowRate := 12, lastPulseTime := lastPulse }

/-- A `loop()` pass in which every clock reading is `t`. -/
def clockAt (t : Nat) : LoopClock :=
  { tCalc := t, tSave := t, tSave1 := t, tSave2 := t, tReport := t }

/-- A state in which 2 litres have been added since the last save, made at
time 0. -/
def unsavedVolume : State :=
  { State.init emptyPrefs false with totalVolume := 2 }

/-- A state in which the pulse counter has wrapped past zero since the
previous tick: the previous count is 4294967290 and the counter holds 4. -/
def wrappedCounter : State :=
  { State.init emptyPrefs false with lastPulseCount := 4294967290, pulseCount := 4 }

/-! ## Flow calculation: basic facts -/

theorem calculateFlow_of_pulses (s : State) (now : Nat)
    (hgate : intervalElapsed s now) (hd : 0 < pulsesThisSecond s) :
    calculateFlow s now =
      { s with
        flowRate := flowRateOf (pulsesThisSecond s)
        totalVolume := s.totalVolume + volumeThisSecond (pulsesThisSecond s)
        lastPulseCount := s.pulseCount
        lastCheck := now } := by
  simp [calculateFlow, hgate, hd]

theorem calculateFlow_of_no_pulses (s : State) (now : Nat)
    (hgate : intervalElapsed s now) (hd : pulsesThisSecond s = 0) :
    calculateFlow s now =
      { s with
        flowRate := if sub32 now s.lastPulseTime > FLOW_IDLE_TIMEOUT then 0 else s.flowRate
        lastPulseCount := s.pulseCount
        lastCheck := now } := by
  by_cases h : sub32 now s.lastPulseTime > FLOW_IDLE_TIMEOUT <;>
    simp [calculateFlow, hgate, hd, h]

theorem calculateFlow_of_not_elapsed (s : State) (now : Nat)
    (hgate : ¬ intervalElapsed s now) : calculateFlow s now = s := by
  simp [calculateFlow, hgate]

theorem volumeThisSecond_nonneg (n : Nat) : 0 ≤ volumeThisSecond (n : ℚ) := by
  unfold volumeThisSecond CALIBRATION_FACTOR
  positivity

/-! ## Claims about the flow calculation -/

/-- C1 (evaluation of the code at the failing input). With 75 pulses counted
since the previous tick and the interval elapsed, `calculateFlow` adds
`75 / (7.5 * 60) = 1/6` litre to `totalVolume`, whereas
`75 / CALIBRATION_FACTOR` is 10 litres. -/
theorem C1_calculateFlow_75_pulses :
    intervalElapsed (pulsesCounted 75) 1000 ∧
    pulsesThisSecond (pulsesCounted 75) = 75 ∧
    (calculateFlow (pulsesCounted 75) 1000).totalVolume
      = (pulsesCounted 75).totalVolume + 1 / 6 ∧
    (75 : ℚ) / CALIBRATION_FACTOR = 10 ∧
    (calculateFlow (pulsesCounted 75) 1000).totalVolume
      ≠ (pulsesCounted 75).totalVolume + (75 : ℚ) / CALIBRATION_FACTOR := by
  have hg : intervalElapsed (pulsesCounted 75) 1000 := by decide
  have hp : pulsesThisSecond (pulsesCounted 75) = 75 := by decide
  have hpos : 0 < pulsesThisSecond (pulsesCounted 75) := by rw [hp]; decide
  refine ⟨hg, hp, ?_, ?_, ?_⟩
  · rw [calculateFlow_of_pulses _ _ hg hpos, hp]
    norm_num [volumeThisSecond, CALIBRATION_FACTOR]
  · norm_num [CALIBRATION_FACTOR]
  · rw [calculateFlow_of_pulses _ _ hg hpos, hp]
    norm_num [volumeThisSecond, CALIBRATION_FACTOR]

theorem calculateFlow_volume_increment (s : State) (now : Nat)
    (hgate : intervalElapsed s now) (hd : 0 < pulsesThisSecond s) :
    (calculateFlow s now).totalVolume
      = s.totalVolume + (pulsesThisSecond s : ℚ) / (CALIBRATION_FACTOR * 60) := by
  rw [calculateFlow_of_pulses s now hgate hd]
  rfl

/-- C3. On every tick of `calculateFlow` that passes the interval gate with a
pulse delta `d > 0`, the new `flowRate` is `(d / CALIBRATION_FACTOR) * 60`
and is strictly positive; the formula is zero only at `d = 0`, and gives
1800 at `d = 225`. -/
theorem C3_flow_rate (s : State) (now : Nat)
    (hgate : intervalElapsed s now) (hd : 0 < pulsesThisSecond s) :
    (calculateFlow s now).flowRate
      = ((pulsesThisSecond s : ℚ) / CALIBRATION_FACTOR) * 60 ∧
    0 < (calculateFlow s now).flowRate ∧
    (∀ d : Nat, ((d : ℚ) / CALIBRATION_FACTOR) * 60 = 0 ↔ d = 0) ∧
    ((225 : Nat) : ℚ) / CALIBRATION_FACTOR * 60 = 1800 := by
  have hrate : (calculateFlow s now).flowRate
      = ((pulsesThisSecond s : ℚ) / CALIBRATION_FACTOR) * 60 := by
    rw [calculateFlow_of_pulses s now hgate hd]
    rfl
  have hq : (0 : ℚ) < (pulsesThisSecond s : ℚ) := by exact_mod_cast hd
  refine ⟨hrate, ?_, ?_, ?_⟩
  · rw [hrate]
    unfold CALIBRATION_FACTOR
    positivity
  · intro d
    constructor
    · intro h
      norm_num [CALIBRATION_FACTOR] at h
      exact h
    · intro h
      simp [h]
  · norm_num [CALIBRATION_FACTOR]

theorem C3_flow_rate_witness :
    intervalElapsed (pulsesCounted 225) 1000 ∧
    0 < pulsesThisSecond (pulsesCounted 225) ∧
    ((calculateFlow (pulsesCounted 225) 1000).flowRate
      = ((pulsesThisSecond (pulsesCounted 225) : ℚ) / CALIBRATION_FACTOR) * 60 ∧
    0 < (calculateFlow (pulsesCounted 225) 1000).flowRate ∧
    (∀ d : Nat, ((d : ℚ) / CALIBRATION_FACTOR) * 60 = 0 ↔ d = 0) ∧
    ((225 : Nat) : ℚ) / CALIBRATION_FACTOR * 60 = 1800) :=
  ⟨by decide, by decide, C3_flow_rate (pulsesCounted 225) 1000 (by decide) (by decide)⟩

/-! ## Volume monotonicity -/

theorem calculateFlow_totalVolume_le (s : State) (now : Nat) :
    s.totalVolume ≤ (calculateFlow s now).totalVolume := by
  by_cases hgate : intervalElapsed s now
  · by_cases hd : 0 < pulsesThisSecond s
    · rw [calculateFlow_of_pulses s now hgate hd]
      have h := volumeThisSecond_nonneg (pulsesThisSecond s)
      simpa using h
    · have h0 : pulsesThisSecond s = 0 := Nat.eq_zero_of_not_pos hd
      rw [calculateFlow_of_no_pulses s now hgate h0]
  · rw [calculateFlow_of_not_elapsed s now hgate]

theorem saveTotalVolume_totalVolume (s : State) (t : Nat) :
    (saveTotalVolume s t).totalVolume = s.totalVolume := rfl

theorem periodicSave_totalVolume (s : State) (now t1 t2 : Nat) :
    (periodicSave s now t1 t2).totalVolume = s.totalVolume := by
  unfold periodicSave
  simp only []
  split_ifs <;> rfl

theorem sendFlowReport_totalVolume (s : State) (f v : ℚ) (b : Nat) :
    (sendFlowReport s f v b).totalVolume = s.totalVolume := by
  unfold sendFlowReport
  split_ifs <;> rfl

theorem shouldReportFlow_totalVolume (s : State) (f v : ℚ) (b now : Nat) :
    (shouldReportFlow s f v b now).2.totalVolume = s.totalVolume := by
  unfold shouldReportFlow
  split_ifs
  · exact sendFlowReport_totalVolume s f v b
  · rfl

theorem loop_totalVolume_le (s : State) (c : LoopClock) :
    s.totalVolume ≤ (loop s c).totalVolume := by
  have h1 := calculateFlow_totalVolume_le s c.tCalc
  have h2 := periodicSave_totalVolume (calculateFlow s c.tCalc) c.tSave c.tSave1 c.tSave2
  unfold loop
  simp only []
  split_ifs
  · rw [shouldReportFlow_totalVolume, h2]
    exact h1
  · rw [h2]
    exact h1

theorem step_totalVolume_le (s : State) (op : Op) :
    s.totalVolume ≤ (step s op).totalVolume := by
  cases op with
  | pulse now => exact le_refl _
  | calculateFlow now => exact calculateFlow_totalVolume_le s now
  | periodicSave now t1 t2 => exact le_of_eq (periodicSave_totalVolume s now t1 t2).symm
  | shouldReportFlow f v b now => exact le_of_eq (shouldReportFlow_totalVolume s f v b now).symm
  | loop c => exact loop_totalVolume_le s c

theorem run_totalVolume_le (ops : List Op) :
    ∀ s : State, s.totalVolume ≤ (run s ops).totalVolume := by
  induction ops with
  | nil => intro s; exact le_refl _
  | cons op rest ih =>
    intro s
    exact le_trans (step_totalVolume_le s op) (ih (step s op))

theorem run_append (s : State) (ops more : List Op) :
    run s (ops ++ more) = run (run s ops) more := by
  simp [run, List.foldl_append]

/-- C4. Volume monotonicity: no operation performed after startup (a pulse
interrupt, `calculateFlow`, `periodicSave`, `shouldReportFlow` or a whole
`loop()` pass, with any counter values and clock readings) lowers
`totalVolume`, and along every sequence of such operations the value after a
longer prefix is at least the value after a shorter one. -/
theorem C4_volume_monotone :
    (∀ (s : State) (op : Op), s.totalVolume ≤ (step s op).totalVolume) ∧
    (∀ (s : State) (ops more : List Op),
      (run s ops).totalVolume ≤ (run s (ops ++ more)).totalVolume) := by
  refine ⟨step_totalVolume_le, ?_⟩
  intro s ops more
  rw [run_append]
  exact run_totalVolume_le more (run s ops)

/-! ## Report decision -/

theorem shouldReport_iff (s : State) (f v : ℚ) (b now : Nat) :
    shouldReport s f v b now = true ↔
      (sub32 now s.lastReportTime > FLOW_REPORT_INTERVAL * 1000 ∨
       |f - s.lastReportedFlow| > s.lastReportedFlow * FLOW_RATE_CHANGE_THRESHOLD ∨
       |v - s.lastReportedVolume| ≥ VOLUME_MILESTONE) := by
  unfold shouldReport
  simp only [BATTERY_ENABLED]
  by_cases h1 : sub32 now s.lastReportTime > FLOW_REPORT_INTERVAL * 1000 <;>
  by_cases h2 : |f - s.lastReportedFlow|
      > s.lastReportedFlow * FLOW_RATE_CHANGE_THRESHOLD <;>
  by_cases h3 : |v - s.lastReportedVolume| ≥ VOLUME_MILESTONE <;>
  simp [h1, h2, h3]

theorem shouldReportFlow_fst (s : State) (f v : ℚ) (b now : Nat) :
    (shouldReportFlow s f v b now).1 = shouldReport s f v b now := by
  unfold shouldReportFlow
  split_ifs with h
  · simp [h]
  · simp at h
    simp [h]

theorem shouldReportFlow_of_true (s : State) (f v : ℚ) (b now : Nat)
    (h : shouldReport s f v b now = true) :
    (shouldReportFlow s f v b now).2 =
      { sendFlowReport s f v b with
        lastReportedFlow := f
        lastReportedVolume := v
        lastReportedBattery := b
        lastReportTime := now } := by
  simp [shouldReportFlow, h]

theorem shouldReportFlow_of_false (s : State) (f v : ℚ) (b now : Nat)
    (h : shouldReport s f v b now = false) :
    (shouldReportFlow s f v b now).2 = s := by
  simp [shouldReportFlow, h]

theorem sendFlowReport_disconnected (s : State) (f v : ℚ) (b : Nat)
    (h : s.zigbeeConnected = false) : sendFlowReport s f v b = s := by
  simp [sendFlowReport, h]

theorem sub32_self (a : Nat) : sub32 a a = 0 := by
  unfold sub32
  omega

/-- C5 (counterexample). In the state after the initialisers, not connected,
calling `shouldReportFlow(2, 3, 90)` at time 40000 meets the periodic trigger;
`sendFlowReport` returns without sending, and yet all four bookkeeping
variables are overwritten. -/
theorem C5_bookkeeping_changes_when_not_delivered :
    idleDisconnected.zigbeeConnected = false ∧
    shouldReport idleDisconnected 2 3 90 40000 = true ∧
    (shouldReportFlow idleDisconnected 2 3 90 40000).2.reports
      = idleDisconnected.reports ∧
    (shouldReportFlow idleDisconnected 2 3 90 40000).2.lastReportTime
      ≠ idleDisconnected.lastReportTime ∧
    (shouldReportFlow idleDisconnected 2 3 90 40000).2.lastReportedFlow
      ≠ idleDisconnected.lastReportedFlow ∧
    (shouldReportFlow idleDisconnected 2 3 90 40000).2.lastReportedVolume
      ≠ idleDisconnected.lastReportedVolume ∧
    (shouldReportFlow idleDisconnected 2 3 90 40000).2.lastReportedBattery
      ≠ idleDisconnected.lastReportedBattery := by
  have hc : idleDisconnected.zigbeeConnected = false := rfl
  have ht : shouldReport idleDisconnected 2 3 90 40000 = true := by
    rw [shouldReport_iff]
    left
    decide
  rw [shouldReportFlow_of_true _ _ _ _ _ ht, sendFlowReport_disconnected _ _ _ _ hc]
  refine ⟨hc, ht, rfl, ?_, ?_, ?_, ?_⟩ <;>
    simp [idleDisconnected, State.init]

/-- C5 (amended). Whenever `shouldReportFlow` is evaluated with a trigger
condition holding while `zigbeeConnected` is false, nothing is sent, and
`lastReportTime`, `lastReportedFlow`, `lastReportedVolume` and
`lastReportedBattery` are set to `now` and to the values passed in all the
same; every other variable is left as it was. -/
theorem C5_bookkeeping_updated_without_delivery (s : State) (f v : ℚ) (b now : Nat)
    (htrigger : shouldReport s f v b now = true)
    (hdisc : s.zigbeeConnected = false) :
    (shouldReportFlow s f v b now).1 = true ∧
    (shouldReportFlow s f v b now).2.reports = s.reports ∧
    (shouldReportFlow s f v b now).2.lastReportTime = now ∧
    (shouldReportFlow s f v b now).2.lastReportedFlow = f ∧
    (shouldReportFlow s f v b now).2.lastReportedVolume = v ∧
    (shouldReportFlow s f v b now).2.lastReportedBattery = b ∧
    (shouldReportFlow s f v b now).2 =
      { s with
        lastReportedFlow := f
        lastReportedVolume := v
        lastReportedBattery := b
        lastReportTime := now } := by
  rw [shouldReportFlow_fst, shouldReportFlow_of_true s f v b now htrigger,
    sendFlowReport_disconnected s f v b hdisc]
  exact ⟨htrigger, rfl, rfl, rfl, rfl, rfl, rfl⟩

theorem C5_bookkeeping_updated_without_delivery_witness :
    shouldReport idleDisconnected 2 3 90 40000 = true ∧
    idleDisconnected.zigbeeConnected = false ∧
    (shouldReportFlow idleDisconnected 2 3 90 40000).2.lastReportTime = 40000 ∧
    (shouldReportFlow idleDisconnected 2 3 90 40000).2.lastReportedFlow = 2 ∧
    (shouldReportFlow idleDisconnected 2 3 90 40000).2.lastReportedVolume = 3 ∧
    (shouldReportFlow idleDisconnected 2 3 90 40000).2.lastReportedBattery = 90 :=
  have ht : shouldReport idleDisconnected 2 3 90 40000 = true := by
    rw [shouldReport_iff]
    left
    decide
  have h := C5_bookkeeping_updated_without_delivery idleDisconnected 2 3 90 40000 ht rfl
  ⟨ht, rfl, h.2.2.1, h.2.2.2.1, h.2.2.2.2.1, h.2.2.2.2.2.1⟩

/-- C6. With the battery rule compiled out, `shouldReportFlow` returns true
exactly when the time since the last report (modulo `2 ^ 32`) exceeds
`FLOW_REPORT_INTERVAL * 1000` ms, or the rate differs from the last reported
rate by more than a tenth of that rate, or the volume differs from the last
reported volume by at least 1. A last report 40 s ago forces a report when
rate and volume are unchanged. -/
theorem C6_report_decision (s : State) (f v : ℚ) (b now : Nat) :
    ((shouldReportFlow s f v b now).1 = true ↔
      (sub32 now s.lastReportTime > FLOW_REPORT_INTERVAL * 1000 ∨
       |f - s.lastReportedFlow| > s.lastReportedFlow * (1 / 10) ∨
       |v - s.lastReportedVolume| ≥ 1)) ∧
    FLOW_REPORT_INTERVAL * 1000 = 30000 ∧
    (shouldReportFlow { s with lastReportTime := now }
        s.lastReportedFlow s.lastReportedVolume b ((now + 40000) % 4294967296)).1
      = true := by
  refine ⟨?_, rfl, ?_⟩
  · rw [shouldReportFlow_fst, shouldReport_iff]
    norm_num [FLOW_RATE_CHANGE_THRESHOLD, VOLUME_MILESTONE]
  · rw [shouldReportFlow_fst, shouldReport_iff]
    left
    show sub32 ((now + 40000) % 4294967296) now > FLOW_REPORT_INTERVAL * 1000
    unfold sub32 FLOW_REPORT_INTERVAL
    omega

/-- C7. Report re-baselining: when `shouldReportFlow` returns true for a
non-negative rate, calling it again at once with the same arguments at the same
time returns false. -/
theorem C7_report_rebaselining (s : State) (f v : ℚ) (b now : Nat)
    (hf : 0 ≤ f) (hreport : (shouldReportFlow s f v b now).1 = true) :
    (shouldReportFlow (shouldReportFlow s f v b now).2 f v b now).1 = false := by
  rw [shouldReportFlow_fst] at hreport
  rw [shouldReportFlow_fst, shouldReportFlow_of_true s f v b now hreport]
  rw [Bool.eq_false_iff]
  intro h
  rw [shouldReport_iff] at h
  simp only [sub32_self, sub_self, abs_zero] at h
  rcases h with h | h | h
  · simp at h
  · have : 0 ≤ f * FLOW_RATE_CHANGE_THRESHOLD := by
      unfold FLOW_RATE_CHANGE_THRESHOLD
      positivity
    exact absurd h (not_lt.mpr this)
  · norm_num [VOLUME_MILESTONE] at h

theorem C7_report_rebaselining_witness :
    (0 : ℚ) ≤ 2 ∧
    (shouldReportFlow idleDisconnected 2 3 90 40000).1 = true ∧
    (shouldReportFlow (shouldReportFlow idleDisconnected 2 3 90 40000).2
      2 3 90 40000).1 = false :=
  have ht : (shouldReportFlow idleDisconnected 2 3 90 40000).1 = true := by
    rw [shouldReportFlow_fst, shouldReport_iff]
    left
    decide
  ⟨by norm_num, ht,
    C7_report_rebaselining idleDisconnected 2 3 90 40000 (by norm_num) ht⟩

/-! ## Persistence -/

theorem saveTotalVolume_puts (s : State) (t : Nat) :
    (saveTotalVolume s t).prefs.puts = s.prefs.puts + 2 := rfl

/-- C8. Persistence dual trigger: one call of `periodicSave` writes to the
durable store exactly when the volume differs from the last saved volume by at
least `SAVE_THRESHOLD` or the time since the last save (modulo `2 ^ 32`)
exceeds `MAX_SAVE_INTERVAL`. When it writes, the store holds the current
volume and pulse count and `lastSavedVolume` is the current volume; otherwise
the whole state, the store included, is unchanged. -/
theorem C8_persistence_dual_trigger (s : State) (now t1 t2 : Nat) :
    (s.prefs.puts < (periodicSave s now t1 t2).prefs.puts ↔
      (|s.totalVolume - s.lastSavedVolume| ≥ SAVE_THRESHOLD ∨
       sub32 now s.lastSaveTime > MAX_SAVE_INTERVAL)) ∧
    ((|s.totalVolume - s.lastSavedVolume| ≥ SAVE_THRESHOLD ∨
       sub32 now s.lastSaveTime > MAX_SAVE_INTERVAL) →
      (periodicSave s now t1 t2).prefs.totalVolume = some s.totalVolume ∧
      (periodicSave s now t1 t2).prefs.totalPulses = some s.pulseCount ∧
      (periodicSave s now t1 t2).lastSavedVolume = s.totalVolume) ∧
    (¬ (|s.totalVolume - s.lastSavedVolume| ≥ SAVE_THRESHOLD ∨
       sub32 now s.lastSaveTime > MAX_SAVE_INTERVAL) →
      periodicSave s now t1 t2 = s) ∧
    SAVE_THRESHOLD = 1 ∧ MAX_SAVE_INTERVAL = 300000 := by
  refine ⟨?_, ?_, ?_, by norm_num [SAVE_THRESHOLD], rfl⟩
  · unfold periodicSave
    by_cases hA : |s.totalVolume - s.lastSavedVolume| ≥ SAVE_THRESHOLD
    · simp only [hA, if_true, true_or, iff_true]
      split_ifs
      · simp only [saveTotalVolume_puts]
        omega
      · simp only [saveTotalVolume_puts]
        omega
    · simp only [hA, if_false, false_or]
      split_ifs with hB
      · simp only [saveTotalVolume_puts]
        constructor
        · intro _; exact hB
        · intro _; omega
      · constructor
        · intro h; exact absurd h (lt_irrefl _)
        · intro h; exact absurd h hB
  · intro h
    unfold periodicSave
    by_cases hA : |s.totalVolume - s.lastSavedVolume| ≥ SAVE_THRESHOLD
    · simp only [hA, if_true]
      split_ifs <;> exact ⟨rfl, rfl, rfl⟩
    · have hB : sub32 now s.lastSaveTime > MAX_SAVE_INTERVAL := h.resolve_left hA
      simp only [hA, if_false, hB, if_true]
      exact ⟨rfl, rfl, rfl⟩
  · intro h
    have hA : ¬ |s.totalVolume - s.lastSavedVolume| ≥ SAVE_THRESHOLD :=
      fun hA => h (Or.inl hA)
    have hB : ¬ sub32 now s.lastSaveTime > MAX_SAVE_INTERVAL :=
      fun hB => h (Or.inr hB)
    unfold periodicSave
    simp only [hA, if_false, hB]

/-- C9 (counterexample). A durable record holding volume 12.5 and the largest
32-bit boot count, 4294967295: `loadTotalVolume` restores the volume, but the
32-bit increment wraps and `bootCount` becomes 0, not 4294967296; 0 is also
what is written back. -/
theorem C9_bootCount_wraps :
    (loadTotalVolume (State.init (storedRecord 12.5 0 4294967295) false)).totalVolume
      = 12.5 ∧
    (loadTotalVolume (State.init (storedRecord 12.5 0 4294967295) false)).bootCount
      = 0 ∧
    (loadTotalVolume (State.init (storedRecord 12.5 0 4294967295) false)).bootCount
      ≠ 4294967295 + 1 ∧
    (loadTotalVolume (State.init (storedRecord 12.5 0 4294967295) false)).prefs.bootCount
      = some 0 := by
  refine ⟨rfl, ?_, ?_, ?_⟩ <;> decide

/-- C9 (amended). Restart continuity: for a durable record holding volume `V`
and boot count `b`, `loadTotalVolume` sets `totalVolume` and `lastSavedVolume`
to `V` and `bootCount` to `(b + 1) mod 2 ^ 32`, which is `b + 1` whenever
`b < 2 ^ 32 - 1`; it writes that boot count back and leaves the stored volume
and the stored pulse total unchanged. -/
theorem C9_restart_continuity (s : State) (V : ℚ) (b : Nat)
    (hV : s.prefs.totalVolume = some V) (hb : s.prefs.bootCount = some b) :
    (loadTotalVolume s).totalVolume = V ∧
    (loadTotalVolume s).lastSavedVolume = V ∧
    (loadTotalVolume s).bootCount = (b + 1) % 4294967296 ∧
    (b < 4294967295 → (loadTotalVolume s).bootCount = b + 1) ∧
    (loadTotalVolume s).prefs.bootCount = some ((b + 1) % 4294967296) ∧
    (loadTotalVolume s).prefs.totalVolume = some V ∧
    (loadTotalVolume s).prefs.totalPulses = s.prefs.totalPulses := by
  have hboot : (loadTotalVolume s).bootCount = (b + 1) % 4294967296 := by
    simp [loadTotalVolume, Preferences.getUInt_bootCount, hb, inc32]
  refine ⟨?_, ?_, hboot, ?_, ?_, ?_, rfl⟩
  · simp [loadTotalVolume, Preferences.getFloat_totalVolume, hV]
  · simp [loadTotalVolume, Preferences.getFloat_totalVolume, hV]
  · intro hlt
    rw [hboot]
    omega
  · simp [loadTotalVolume, Preferences.getUInt_bootCount, hb, inc32,
      Preferences.putUInt_bootCount]
  · simp [loadTotalVolume, Preferences.putUInt_bootCount, hV]

theorem C9_restart_continuity_witness :
    (State.init (storedRecord 12.5 900 4) false).prefs.totalVolume = some 12.5 ∧
    (State.init (storedRecord 12.5 900 4) false).prefs.bootCount = some 4 ∧
    (loadTotalVolume (State.init (storedRecord 12.5 900 4) false)).totalVolume = 12.5 ∧
    (loadTotalVolume (State.init (storedRecord 12.5 900 4) false)).lastSavedVolume
      = 12.5 ∧
    (loadTotalVolume (State.init (storedRecord 12.5 900 4) false)).bootCount = 5 ∧
    (loadTotalVolume (State.init (storedRecord 12.5 900 4) false)).prefs.totalVolume
      = some 12.5 :=
  have h := C9_restart_continuity (State.init (storedRecord 12.5 900 4) false)
    12.5 4 rfl rfl
  ⟨rfl, rfl, h.1, h.2.1, h.2.2.2.1 (by decide), h.2.2.2.2.2.1⟩

/-! ## Zero pulse delta -/

theorem sub32_eq_sub (a b : Nat) (hba : b ≤ a) (ha : a < 4294967296) :
    sub32 a b = a - b := by
  unfold sub32
  omega

/-- C10. Zero-delta behaviour: on a tick of `calculateFlow` that passes the
interval gate with pulse delta 0, `flowRate` becomes 0 when the time since
the last pulse, `now - lastPulseTime` in 32-bit unsigned arithmetic, exceeds
`FLOW_IDLE_TIMEOUT` (5000 ms), and keeps its prior value when it does not;
`totalVolume` is unchanged in both cases. With `now = 10000`, a last pulse at
4000 is idle and one at 7000 is not; the 32-bit difference is the plain
difference whenever `lastPulseTime ≤ now`. -/
theorem C10_zero_delta (s : State) (now : Nat)
    (hgate : intervalElapsed s now) (hd : pulsesThisSecond s = 0) :
    (sub32 now s.lastPulseTime > FLOW_IDLE_TIMEOUT →
      (calculateFlow s now).flowRate = 0) ∧
    (sub32 now s.lastPulseTime ≤ FLOW_IDLE_TIMEOUT →
      (calculateFlow s now).flowRate = s.flowRate) ∧
    (calculateFlow s now).totalVolume = s.totalVolume ∧
    FLOW_IDLE_TIMEOUT = 5000 ∧
    sub32 10000 4000 > FLOW_IDLE_TIMEOUT ∧
    sub32 10000 7000 ≤ FLOW_IDLE_TIMEOUT ∧
    (s.lastPulseTime ≤ now → now < 4294967296 →
      sub32 now s.lastPulseTime = now - s.lastPulseTime) := by
  rw [calculateFlow_of_no_pulses s now hgate hd]
  refine ⟨?_, ?_, rfl, rfl, by decide, by decide, sub32_eq_sub now s.lastPulseTime⟩
  · intro h
    simp [h]
  · intro h
    have : ¬ sub32 now s.lastPulseTime > FLOW_IDLE_TIMEOUT := not_lt.mpr h
    simp [this]

theorem C10_zero_delta_witness :
    intervalElapsed (noNewPulses 4000) 10000 ∧
    pulsesThisSecond (noNewPulses 4000) = 0 ∧
    (noNewPulses 4000).flowRate = 12 ∧
    (calculateFlow (noNewPulses 4000) 10000).flowRate = 0 ∧
    (calculateFlow (noNewPulses 4000) 10000).totalVolume
      = (noNewPulses 4000).totalVolume ∧
    intervalElapsed (noNewPulses 7000) 10000 ∧
    pulsesThisSecond (noNewPulses 7000) = 0 ∧
    (calculateFlow (noNewPulses 7000) 10000).flowRate = 12 :=
  have hidle := C10_zero_delta (noNewPulses 4000) 10000 (by decide) (by decide)
  have hflow := C10_zero_delta (noNewPulses 7000) 10000 (by decide) (by decide)
  ⟨by decide, by decide, rfl, hidle.1 (by decide), hidle.2.2.1,
    by decide, by decide, hflow.2.1 (by decide)⟩

/-! ## First tick after startup -/

theorem sub32_zero (a : Nat) (ha : a < 4294967296) : sub32 a 0 = a := by
  unfold sub32
  omega

/-- C11 (counterexample). At the first tick after startup the previous-count
memory holds its initialiser 0. With 5 pulses already counted, the tick at
time 1000 computes delta 5, not 0, and derives rate 40 and volume 1/90 from
those pulses. -/
theorem C11_first_tick_counts_earlier_pulses :
    (pulsesCounted 5).lastPulseCount = 0 ∧
    intervalElapsed (pulsesCounted 5) 1000 ∧
    pulsesThisSecond (pulsesCounted 5) = 5 ∧
    (calculateFlow (pulsesCounted 5) 1000).flowRate = 40 ∧
    (calculateFlow (pulsesCounted 5) 1000).totalVolume
      = (pulsesCounted 5).totalVolume + 1 / 90 := by
  have hg : intervalElapsed (pulsesCounted 5) 1000 := by decide
  have hp : pulsesThisSecond (pulsesCounted 5) = 5 := by decide
  have hpos : 0 < pulsesThisSecond (pulsesCounted 5) := by rw [hp]; decide
  refine ⟨rfl, hg, hp, ?_, ?_⟩
  · rw [calculateFlow_of_pulses _ _ hg hpos, hp]
    norm_num [flowRateOf, CALIBRATION_FACTOR]
  · rw [calculateFlow_of_pulses _ _ hg hpos, hp]
    norm_num [volumeThisSecond, CALIBRATION_FACTOR]

/-- C11 (amended). On the first `calculateFlow` tick after startup the
previous-count memory is its initialiser 0, so the delta computed equals the
value `c` the pulse counter holds at that tick: it is 0 only when `c = 0`,
and for `c > 0` the tick derives the rate `(c / CALIBRATION_FACTOR) * 60` and
the volume `c / (CALIBRATION_FACTOR * 60)` from the pulses counted since
startup. After the tick the previous-count memory equals `c`. -/
theorem C11_first_tick (s : State) (now : Nat)
    (hfirst : s.lastPulseCount = 0) (hc : s.pulseCount < 4294967296)
    (hgate : intervalElapsed s now) :
    pulsesThisSecond s = s.pulseCount ∧
    (pulsesThisSecond s = 0 ↔ s.pulseCount = 0) ∧
    (0 < s.pulseCount →
      (calculateFlow s now).flowRate = ((s.pulseCount : ℚ) / CALIBRATION_FACTOR) * 60 ∧
      (calculateFlow s now).totalVolume
        = s.totalVolume + (s.pulseCount : ℚ) / (CALIBRATION_FACTOR * 60)) ∧
    (s.pulseCount = 0 → (calculateFlow s now).totalVolume = s.totalVolume) ∧
    (calculateFlow s now).lastPulseCount = s.pulseCount := by
  have hp : pulsesThisSecond s = s.pulseCount := by
    unfold pulsesThisSecond
    rw [hfirst]
    exact sub32_zero s.pulseCount hc
  refine ⟨hp, by rw [hp], ?_, ?_, ?_⟩
  · intro hpos
    have hd : 0 < pulsesThisSecond s := by rw [hp]; exact hpos
    rw [calculateFlow_of_pulses s now hgate hd, hp]
    exact ⟨rfl, rfl⟩
  · intro h0
    have hd : pulsesThisSecond s = 0 := by rw [hp]; exact h0
    rw [calculateFlow_of_no_pulses s now hgate hd]
  · by_cases hd : 0 < pulsesThisSecond s
    · rw [calculateFlow_of_pulses s now hgate hd]
    · rw [calculateFlow_of_no_pulses s now hgate (Nat.eq_zero_of_not_pos hd)]

theorem C11_first_tick_witness :
    (pulsesCounted 5).lastPulseCount = 0 ∧
    (pulsesCounted 5).pulseCount < 4294967296 ∧
    intervalElapsed (pulsesCounted 5) 1000 ∧
    pulsesThisSecond (pulsesCounted 5) = (pulsesCounted 5).pulseCount ∧
    (calculateFlow (pulsesCounted 5) 1000).lastPulseCount
      = (pulsesCounted 5).pulseCount :=
  have h := C11_first_tick (pulsesCounted 5) 1000 rfl (by decide) (by decide)
  ⟨rfl, by decide, by decide, h.1, h.2.2.2.2⟩

/-! ## Pulse accumulator -/

theorem pulseCounterTimes_cons (s : State) (t : Nat) (times : List Nat) :
    pulseCounterTimes s (t :: times) = pulseCounterTimes (pulseCounter s t) times := rfl

theorem pulseCounterTimes_pulseCount (times : List Nat) :
    ∀ s : State, s.pulseCount < 4294967296 →
      (pulseCounterTimes s times).pulseCount
        = (s.pulseCount + times.length) % 4294967296 := by
  induction times with
  | nil =>
    intro s hs
    show s.pulseCount = (s.pulseCount + 0) % 4294967296
    omega
  | cons t rest ih =>
    intro s hs
    have hstep : (pulseCounter s t).pulseCount = (s.pulseCount + 1) % 4294967296 := rfl
    have hlt : (pulseCounter s t).pulseCount < 4294967296 := by
      rw [hstep]
      omega
    rw [pulseCounterTimes_cons, ih (pulseCounter s t) hlt, hstep, List.length_cons]
    omega

/-- C12. Pulse accumulator: one call of `pulseCounter` sets `pulseCount` to
`(pulseCount + 1) mod 2 ^ 32` and `lastPulseTime` to the clock reading and
changes nothing else; `n` calls starting from a 32-bit count `c` leave
`pulseCount = (c + n) mod 2 ^ 32`. -/
theorem C12_pulse_accumulator (s : State) (now : Nat) (times : List Nat)
    (hc : s.pulseCount < 4294967296) :
    pulseCounter s now
      = { s with pulseCount := (s.pulseCount + 1) % 4294967296, lastPulseTime := now } ∧
    (pulseCounterTimes s times).pulseCount
      = (s.pulseCount + times.length) % 4294967296 :=
  ⟨rfl, pulseCounterTimes_pulseCount times s hc⟩

theorem C12_pulse_accumulator_witness :
    (pulsesCounted 0).pulseCount < 4294967296 ∧
    (List.range 102).length = 102 ∧
    (pulseCounterTimes (pulsesCounted 0) (List.range 102)).pulseCount = 102 :=
  have h := (C12_pulse_accumulator (pulsesCounted 0) 0 (List.range 102) (by decide)).2
  ⟨by decide, by simp, by simpa [pulsesCounted, State.init] using h⟩

/-! ## First boot -/

/-- C13. First-boot default: when none of the keys is stored,
`loadTotalVolume` returns a state with `totalVolume = 0`,
`lastSavedVolume = 0` and `bootCount = 1`, and the store then holds boot count
1 and still no volume and no pulse total. -/
theorem C13_first_boot (s : State)
    (hV : s.prefs.totalVolume = none) (hP : s.prefs.totalPulses = none)
    (hB : s.prefs.bootCount = none) :
    (loadTotalVolume s).totalVolume = 0 ∧
    (loadTotalVolume s).lastSavedVolume = 0 ∧
    (loadTotalVolume s).bootCount = 1 ∧
    (loadTotalVolume s).prefs.bootCount = some 1 ∧
    (loadTotalVolume s).prefs.totalVolume = none ∧
    (loadTotalVolume s).prefs.totalPulses = none := by
  refine ⟨?_, ?_, ?_, ?_, ?_, ?_⟩
  · simp [loadTotalVolume, Preferences.getFloat_totalVolume, hV]
  · simp [loadTotalVolume, Preferences.getFloat_totalVolume, hV]
  · simp [loadTotalVolume, Preferences.getUInt_bootCount, hB, inc32]
  · simp [loadTotalVolume, Preferences.getUInt_bootCount, hB, inc32,
      Preferences.putUInt_bootCount]
  · simp [loadTotalVolume, Preferences.putUInt_bootCount, hV]
  · simp [loadTotalVolume, Preferences.putUInt_bootCount, hP]

theorem C13_first_boot_witness :
    idleDisconnected.prefs.totalVolume = none ∧
    idleDisconnected.prefs.totalPulses = none ∧
    idleDisconnected.prefs.bootCount = none ∧
    (loadTotalVolume idleDisconnected).totalVolume = 0 ∧
    (loadTotalVolume idleDisconnected).lastSavedVolume = 0 ∧
    (loadTotalVolume idleDisconnected).bootCount = 1 ∧
    (loadTotalVolume idleDisconnected).prefs.bootCount = some 1 :=
  have h := C13_first_boot idleDisconnected rfl rfl rfl
  ⟨rfl, rfl, rfl, h.1, h.2.1, h.2.2.1, h.2.2.2.1⟩

/-! ## Zero baseline -/

/-- C14. Zero-baseline edge case: when `lastReportedFlow = 0`,
`shouldReportFlow` returns true for every non-zero current rate, whatever the
clock reading, the volume and the battery value. -/
theorem C14_zero_baseline (s : State) (f v : ℚ) (b now : Nat)
    (hzero : s.lastReportedFlow = 0) (hf : f ≠ 0) :
    (shouldReportFlow s f v b now).1 = true := by
  rw [shouldReportFlow_fst, shouldReport_iff]
  right
  left
  rw [hzero]
  simpa using hf

theorem C14_zero_baseline_witness :
    idleDisconnected.lastReportedFlow = 0 ∧
    (0.01 : ℚ) ≠ 0 ∧
    sub32 0 idleDisconnected.lastReportTime = 0 ∧
    idleDisconnected.lastReportedVolume = 0 ∧
    (shouldReportFlow idleDisconnected 0.01 0 100 0).1 = true :=
  ⟨rfl, by norm_num, by decide, rfl,
    C14_zero_baseline idleDisconnected 0.01 0 100 0 rfl (by norm_num)⟩

/-! ## Reporting and the connection flag -/

theorem calculateFlow_report_frame (s : State) (now : Nat) :
    reportState (calculateFlow s now) = reportState s ∧
    (calculateFlow s now).reports = s.reports ∧
    (calculateFlow s now).zigbeeConnected = s.zigbeeConnected := by
  unfold calculateFlow
  split_ifs <;> exact ⟨rfl, rfl, rfl⟩

theorem periodicSave_report_frame (s : State) (now t1 t2 : Nat) :
    reportState (periodicSave s now t1 t2) = reportState s ∧
    (periodicSave s now t1 t2).reports = s.reports ∧
    (periodicSave s now t1 t2).zigbeeConnected = s.zigbeeConnected := by
  unfold periodicSave
  simp only []
  split_ifs <;> exact ⟨rfl, rfl, rfl⟩

theorem loop_of_disconnected (s : State) (c : LoopClock)
    (hdisc : s.zigbeeConnected = false) :
    loop s c = periodicSave (calculateFlow s c.tCalc) c.tSave c.tSave1 c.tSave2 := by
  have h1 := (calculateFlow_report_frame s c.tCalc).2.2
  have h2 := (periodicSave_report_frame (calculateFlow s c.tCalc)
    c.tSave c.tSave1 c.tSave2).2.2
  unfold loop
  simp only [h2, h1, hdisc]
  rfl

theorem loop_disconnected_frame (s : State) (c : LoopClock)
    (hdisc : s.zigbeeConnected = false) :
    reportState (loop s c) = reportState s ∧
    (loop s c).reports = s.reports ∧
    (loop s c).zigbeeConnected = false := by
  have h1 := calculateFlow_report_frame s c.tCalc
  have h2 := periodicSave_report_frame (calculateFlow s c.tCalc)
    c.tSave c.tSave1 c.tSave2
  rw [loop_of_disconnected s c hdisc]
  exact ⟨h2.1.trans h1.1, h2.2.1.trans h1.2.1, (h2.2.2.trans h1.2.2).trans hdisc⟩

theorem loops_disconnected_frame (cs : List LoopClock) :
    ∀ s : State, s.zigbeeConnected = false →
      reportState (loops s cs) = reportState s ∧
      (loops s cs).reports = s.reports ∧
      (loops s cs).zigbeeConnected = false := by
  induction cs with
  | nil => intro s hdisc; exact ⟨rfl, rfl, hdisc⟩
  | cons c rest ih =>
    intro s hdisc
    have h1 := loop_disconnected_frame s c hdisc
    have h2 := ih (loop s c) h1.2.2
    exact ⟨h2.1.trans h1.1, h2.2.1.trans h1.2.1, h2.2.2⟩

theorem shouldReport_congr (s1 s2 : State) (f v : ℚ) (b now : Nat)
    (h : reportState s1 = reportState s2) :
    shouldReport s1 f v b now = shouldReport s2 f v b now := by
  simp only [reportState, Prod.mk.injEq] at h
  obtain ⟨ht, hf, hv, hb⟩ := h
  unfold shouldReport
  rw [ht, hf, hv, hb]

theorem baselineIsLastReport_congr (s1 s2 : State)
    (hr : reportState s1 = reportState s2) (hrep : s1.reports = s2.reports)
    (h : baselineIsLastReport s2) : baselineIsLastReport s1 := by
  simp only [reportState, Prod.mk.injEq] at hr
  intro r hlast
  rw [hrep] at hlast
  have h2 := h r hlast
  rw [hr.2.1, hr.2.2.1, hr.2.2.2]
  exact h2

theorem loop_baselineIsLastReport (s : State) (c : LoopClock)
    (h : baselineIsLastReport s) : baselineIsLastReport (loop s c) := by
  have h1 := calculateFlow_report_frame s c.tCalc
  have h2 := periodicSave_report_frame (calculateFlow s c.tCalc)
    c.tSave c.tSave1 c.tSave2
  have hs2 : baselineIsLastReport
      (periodicSave (calculateFlow s c.tCalc) c.tSave c.tSave1 c.tSave2) :=
    baselineIsLastReport_congr _ s (h2.1.trans h1.1) (h2.2.1.trans h1.2.1) h
  unfold loop
  simp only []
  split_ifs with hconn
  · generalize periodicSave (calculateFlow s c.tCalc) c.tSave c.tSave1 c.tSave2 = s2
      at hs2 hconn ⊢
    by_cases hrep : shouldReport s2 s2.flowRate s2.totalVolume s2.batteryPercent
        c.tReport = true
    · rw [shouldReportFlow_of_true _ _ _ _ _ hrep]
      intro r hlast
      simp [sendFlowReport, hconn] at hlast
      subst hlast
      exact ⟨rfl, rfl, rfl⟩
    · have hfalse : shouldReport s2 s2.flowRate s2.totalVolume s2.batteryPercent
          c.tReport = false := by simpa using hrep
      rw [shouldReportFlow_of_false _ _ _ _ _ hfalse]
      exact hs2
  · exact hs2

theorem runEvents_baselineIsLastReport (es : List Event) :
    ∀ s : State, baselineIsLastReport s → baselineIsLastReport (runEvents s es) := by
  induction es with
  | nil => intro s h; exact h
  | cons e rest ih =>
    intro s h
    apply ih
    cases e with
    | loop c => exact loop_baselineIsLastReport s c h
    | pulse now => exact h
    | connection connected => exact h

/-- C15. Reporting is skipped while disconnected: a `loop()` pass run with
`zigbeeConnected = false` consists of the flow calculation and the periodic
save only (`shouldReportFlow` is not evaluated), sends nothing and leaves
`lastReportTime`, `lastReportedFlow`, `lastReportedVolume` and
`lastReportedBattery` unchanged; the same holds after any number of such
passes, so a later report decision is taken against the same baseline as
before them. From startup on, through any sequence of `loop()` passes, pulse
interrupts and connection changes, that baseline is the content of the last
report handed to the transport. -/
theorem C15_no_reporting_while_disconnected (s : State) (c : LoopClock)
    (hdisc : s.zigbeeConnected = false) :
    loop s c = periodicSave (calculateFlow s c.tCalc) c.tSave c.tSave1 c.tSave2 ∧
    (loop s c).reports = s.reports ∧
    (loop s c).lastReportTime = s.lastReportTime ∧
    (loop s c).lastReportedFlow = s.lastReportedFlow ∧
    (loop s c).lastReportedVolume = s.lastReportedVolume ∧
    (loop s c).lastReportedBattery = s.lastReportedBattery ∧
    (∀ cs : List LoopClock,
      (loops s cs).reports = s.reports ∧
      (loops s cs).lastReportTime = s.lastReportTime ∧
      (loops s cs).lastReportedFlow = s.lastReportedFlow ∧
      (loops s cs).lastReportedVolume = s.lastReportedVolume ∧
      (loops s cs).lastReportedBattery = s.lastReportedBattery ∧
      ∀ (f v : ℚ) (b now : Nat),
        shouldReport (loops s cs) f v b now = shouldReport s f v b now) ∧
    (∀ (p : Preferences) (connected : Bool) (es : List Event),
      baselineIsLastReport (runEvents (State.init p connected) es)) := by
  have h := loop_disconnected_frame s c hdisc
  have hr := h.1
  simp only [reportState, Prod.mk.injEq] at hr
  refine ⟨loop_of_disconnected s c hdisc, h.2.1, hr.1, hr.2.1, hr.2.2.1, hr.2.2.2,
    ?_, ?_⟩
  · intro cs
    have hs := loops_disconnected_frame cs s hdisc
    have hrs := hs.1
    simp only [reportState, Prod.mk.injEq] at hrs
    exact ⟨hs.2.1, hrs.1, hrs.2.1, hrs.2.2.1, hrs.2.2.2,
      fun f v b now => shouldReport_congr (loops s cs) s f v b now hs.1⟩
  · intro p connected es
    apply runEvents_baselineIsLastReport
    intro r hlast
    simp [State.init] at hlast

theorem C15_no_reporting_while_disconnected_witness :
    idleDisconnected.zigbeeConnected = false ∧
    shouldReport idleDisconnected idleDisconnected.flowRate
      idleDisconnected.totalVolume idleDisconnected.batteryPercent 40000 = true ∧
    (loop idleDisconnected (clockAt 40000)).reports = idleDisconnected.reports ∧
    (loop idleDisconnected (clockAt 40000)).lastReportTime
      = idleDisconnected.lastReportTime ∧
    (loop idleDisconnected (clockAt 40000)).lastReportedFlow
      = idleDisconnected.lastReportedFlow ∧
    (loop idleDisconnected (clockAt 40000)).lastReportedVolume
      = idleDisconnected.lastReportedVolume ∧
    (loop idleDisconnected (clockAt 40000)).lastReportedBattery
      = idleDisconnected.lastReportedBattery :=
  have h := C15_no_reporting_while_disconnected idleDisconnected (clockAt 40000) rfl
  have ht : shouldReport idleDisconnected idleDisconnected.flowRate
      idleDisconnected.totalVolume idleDisconnected.batteryPercent 40000 = true := by
    rw [shouldReport_iff]
    left
    decide
  ⟨rfl, ht, h.2.1, h.2.2.1, h.2.2.2.1, h.2.2.2.2.1, h.2.2.2.2.2.1⟩

/-- C16. Report bookkeeping is mutated exactly when a report is decided: if
`shouldReportFlow` returns false, `lastReportTime`, `lastReportedFlow`,
`lastReportedVolume` and `lastReportedBattery` (indeed the whole state) are
unchanged; if it returns true they equal `now` and the rate, volume and
battery values passed in. -/
theorem C16_bookkeeping_iff_report (s : State) (f v : ℚ) (b now : Nat) :
    ((shouldReportFlow s f v b now).1 = false →
      (shouldReportFlow s f v b now).2 = s ∧
      (shouldReportFlow s f v b now).2.lastReportTime = s.lastReportTime ∧
      (shouldReportFlow s f v b now).2.lastReportedFlow = s.lastReportedFlow ∧
      (shouldReportFlow s f v b now).2.lastReportedVolume = s.lastReportedVolume ∧
      (shouldReportFlow s f v b now).2.lastReportedBattery = s.lastReportedBattery) ∧
    ((shouldReportFlow s f v b now).1 = true →
      (shouldReportFlow s f v b now).2.lastReportTime = now ∧
      (shouldReportFlow s f v b now).2.lastReportedFlow = f ∧
      (shouldReportFlow s f v b now).2.lastReportedVolume = v ∧
      (shouldReportFlow s f v b now).2.lastReportedBattery = b) := by
  constructor
  · intro h
    rw [shouldReportFlow_fst] at h
    rw [shouldReportFlow_of_false s f v b now h]
    exact ⟨rfl, rfl, rfl, rfl, rfl⟩
  · intro h
    rw [shouldReportFlow_fst] at h
    rw [shouldReportFlow_of_true s f v b now h]
    exact ⟨rfl, rfl, rfl, rfl⟩

/-! ## Fractional pulse counts -/

theorem toUInt32_of_floor (x : ℚ) (n : Nat) (hn : n < 4294967296)
    (hlo : (n : ℚ) ≤ x) (hhi : x < (n : ℚ) + 1) : toUInt32 x = n := by
  have hfloor : ⌊x⌋ = (n : ℤ) := by
    rw [Int.floor_eq_iff]
    exact ⟨by exact_mod_cast hlo, by exact_mod_cast hhi⟩
  unfold toUInt32
  rw [hfloor, Int.toNat_ofNat]
  omega

theorem volumeThisSecond_eq (d : Nat) : volumeThisSecond (d : ℚ) = (d : ℚ) / 450 := by
  unfold volumeThisSecond CALIBRATION_FACTOR
  norm_num

theorem volumeThisSecond_ne_of_odd (d k : Nat) (hk : k % 2 = 1) :
    volumeThisSecond (d : ℚ) ≠ (k : ℚ) / 900 := by
  rw [volumeThisSecond_eq]
  intro h
  have h2 : (2 * d : ℚ) = (k : ℚ) := by
    field_simp at h
    linarith
  have h3 : 2 * d = k := by exact_mod_cast h2
  omega

/-- C2 (evaluation of the code at the failing input). On every tick of
`calculateFlow` that passes the interval gate with a pulse delta `d > 0`,
`totalVolume` grows by `d / (CALIBRATION_FACTOR * 60)`, but `d` is an
integer: a pulse count of 7.5 stored in the `uint32_t` variable becomes 7 and
adds 7/450 L, which is neither 1/60 L nor within 0.0001 of it, and 37.5
becomes 37 and adds 37/450 L, which is neither 5/60 L nor within 0.001 of it.
No integer pulse delta adds 1/60 L or 5/60 L. -/
theorem C2_fractional_pulses_truncated :
    (∀ (s : State) (now : Nat), intervalElapsed s now → 0 < pulsesThisSecond s →
      (calculateFlow s now).totalVolume
        = s.totalVolume + (pulsesThisSecond s : ℚ) / (CALIBRATION_FACTOR * 60)) ∧
    toUInt32 7.5 = 7 ∧
    volumePerSecond 7.5 = 7 / 450 ∧
    volumePerSecond 7.5 ≠ 1 / 60 ∧
    ¬ |volumePerSecond 7.5 - 1 / 60| ≤ 0.0001 ∧
    (calculateFlow (pulsesCounted (toUInt32 7.5)) 1000).totalVolume
      = (pulsesCounted (toUInt32 7.5)).totalVolume + 7 / 450 ∧
    toUInt32 37.5 = 37 ∧
    volumePerSecond 37.5 = 37 / 450 ∧
    volumePerSecond 37.5 ≠ 5 / 60 ∧
    ¬ |volumePerSecond 37.5 - 5 / 60| ≤ 0.001 ∧
    (calculateFlow (pulsesCounted (toUInt32 37.5)) 1000).totalVolume
      = (pulsesCounted (toUInt32 37.5)).totalVolume + 37 / 450 ∧
    (∀ d : Nat, volumeThisSecond (d : ℚ) ≠ 1 / 60 ∧ volumeThisSecond (d : ℚ) ≠ 5 / 60) := by
  have h7 : toUInt32 7.5 = 7 :=
    toUInt32_of_floor 7.5 7 (by decide) (by norm_num) (by norm_num)
  have h37 : toUInt32 37.5 = 37 :=
    toUInt32_of_floor 37.5 37 (by decide) (by norm_num) (by norm_num)
  have v7 : volumePerSecond 7.5 = 7 / 450 := by
    unfold volumePerSecond
    rw [h7, volumeThisSecond_eq]
    norm_num
  have v37 : volumePerSecond 37.5 = 37 / 450 := by
    unfold volumePerSecond
    rw [h37, volumeThisSecond_eq]
    norm_num
  have t7 : (calculateFlow (pulsesCounted 7) 1000).totalVolume
      = (pulsesCounted 7).totalVolume + 7 / 450 := by
    rw [calculateFlow_volume_increment (pulsesCounted 7) 1000 (by decide) (by decide)]
    have hp : pulsesThisSecond (pulsesCounted 7) = 7 := by decide
    rw [hp]
    norm_num [CALIBRATION_FACTOR]
  have t37 : (calculateFlow (pulsesCounted 37) 1000).totalVolume
      = (pulsesCounted 37).totalVolume + 37 / 450 := by
    rw [calculateFlow_volume_increment (pulsesCounted 37) 1000 (by decide) (by decide)]
    have hp : pulsesThisSecond (pulsesCounted 37) = 37 := by decide
    rw [hp]
    norm_num [CALIBRATION_FACTOR]
  refine ⟨calculateFlow_volume_increment, h7, v7, ?_, ?_, ?_, h37, v37, ?_, ?_, ?_, ?_⟩
  · rw [v7]
    norm_num
  · rw [v7]
    norm_num [abs_le]
  · rw [h7]
    exact t7
  · rw [v37]
    norm_num
  · rw [v37]
    norm_num [abs_le]
  · rw [h37]
    exact t37
  · intro d
    constructor
    · have h := volumeThisSecond_ne_of_odd d 15 (by decide)
      intro h2
      apply h
      rw [h2]
      norm_num
    · have h := volumeThisSecond_ne_of_odd d 75 (by decide)
      intro h2
      apply h
      rw [h2]
      norm_num

/-- C17 (evaluation of the code at the failing input). A pulse rate of 37.5
stored in the `uint32_t` variable becomes 37, and the rate computed from it
is 296, which is 4 away from 300; likewise 7.5 becomes 7 and gives 56, which
is 4 away from 60. Neither is within 0.01 of the value asserted, and no
integer pulse count gives a rate within 0.01 of 300. -/
theorem C17_fractional_pulses_truncated :
    toUInt32 37.5 = 37 ∧
    expectedFlowRate 37.5 = 296 ∧
    ¬ |expectedFlowRate 37.5 - 300| ≤ 0.01 ∧
    toUInt32 7.5 = 7 ∧
    expectedFlowRate 7.5 = 56 ∧
    ¬ |expectedFlowRate 7.5 - 60| ≤ 0.01 ∧
    (∀ d : Nat, ¬ |flowRateOf (d : ℚ) - 300| ≤ 0.01) := by
  have h37 : toUInt32 37.5 = 37 :=
    toUInt32_of_floor 37.5 37 (by decide) (by norm_num) (by norm_num)
  have h7 : toUInt32 7.5 = 7 :=
    toUInt32_of_floor 7.5 7 (by decide) (by norm_num) (by norm_num)
  have e37 : expectedFlowRate 37.5 = 296 := by
    unfold expectedFlowRate
    rw [h37]
    norm_num [flowRateOf, CALIBRATION_FACTOR]
  have e7 : expectedFlowRate 7.5 = 56 := by
    unfold expectedFlowRate
    rw [h7]
    norm_num [flowRateOf, CALIBRATION_FACTOR]
  refine ⟨h37, e37, ?_, h7, e7, ?_, ?_⟩
  · rw [e37]
    norm_num [abs_le]
  · rw [e7]
    norm_num [abs_le]
  · intro d h
    rw [abs_le] at h
    have hrate : flowRateOf (d : ℚ) = 8 * (d : ℚ) := by
      unfold flowRateOf CALIBRATION_FACTOR
      ring
    rw [hrate] at h
    by_cases hd : d ≤ 37
    · have : (d : ℚ) ≤ 37 := by exact_mod_cast hd
      linarith [h.1]
    · have : (38 : ℚ) ≤ (d : ℚ) := by exact_mod_cast Nat.lt_of_not_le hd
      linarith [h.2]

/-! ## Number of saves in one `periodicSave` -/

theorem periodicSave_saves_twice (s : State) (now t1 t2 : Nat)
    (hvol : |s.totalVolume - s.lastSavedVolume| ≥ SAVE_THRESHOLD)
    (hlate : sub32 now t1 > MAX_SAVE_INTERVAL) :
    periodicSave s now t1 t2 = saveTotalVolume (saveTotalVolume s t1) t2 := by
  unfold periodicSave
  simp only [hvol, if_true]
  have h : sub32 now (saveTotalVolume s t1).lastSaveTime > MAX_SAVE_INTERVAL := hlate
  simp only [h, if_true]

/-- C18 (evaluation of the code at the failing input). With 2 litres unsaved,
`periodicSave` samples `now = 100`; the volume rule fires and
`saveTotalVolume` stamps `lastSaveTime = 101`. The interval check then
computes `(100 - 101) mod 2 ^ 32 = 4294967295 > MAX_SAVE_INTERVAL` and
`saveTotalVolume` runs a second time: four `put` calls instead of two. -/
theorem C18_periodicSave_saves_twice :
    |unsavedVolume.totalVolume - unsavedVolume.lastSavedVolume| ≥ SAVE_THRESHOLD ∧
    (saveTotalVolume unsavedVolume 101).lastSaveTime = 101 ∧
    sub32 100 101 = 4294967295 ∧
    periodicSave unsavedVolume 100 101 102
      = saveTotalVolume (saveTotalVolume unsavedVolume 101) 102 ∧
    (saveTotalVolume unsavedVolume 101).prefs.puts = unsavedVolume.prefs.puts + 2 ∧
    (periodicSave unsavedVolume 100 101 102).prefs.puts
      = unsavedVolume.prefs.puts + 4 := by
  have hvol : |unsavedVolume.totalVolume - unsavedVolume.lastSavedVolume|
      ≥ SAVE_THRESHOLD := by
    norm_num [unsavedVolume, State.init, SAVE_THRESHOLD]
  have hlate : sub32 100 101 > MAX_SAVE_INTERVAL := by decide
  have h := periodicSave_saves_twice unsavedVolume 100 101 102 hvol hlate
  refine ⟨hvol, rfl, by decide, h, rfl, ?_⟩
  rw [h]
  rfl

/-! ## Pulse conservation across ticks -/

theorem tick_spec (s : State) (count now : Nat)
    (hgate : intervalElapsed s now) (hmono : s.lastPulseCount ≤ count)
    (hc : count < 4294967296) :
    (tick s count now).totalVolume
      = s.totalVolume + ((count : ℚ) - (s.lastPulseCount : ℚ)) / (CALIBRATION_FACTOR * 60) ∧
    (tick s count now).lastPulseCount = count := by
  have hg : intervalElapsed { s with pulseCount := count } now := hgate
  have hp : pulsesThisSecond { s with pulseCount := count } = count - s.lastPulseCount :=
    sub32_eq_sub count s.lastPulseCount hmono hc
  have hcast : ((count - s.lastPulseCount : Nat) : ℚ)
      = (count : ℚ) - (s.lastPulseCount : ℚ) := Nat.cast_sub hmono
  unfold tick
  by_cases hd : 0 < pulsesThisSecond { s with pulseCount := count }
  · rw [calculateFlow_of_pulses _ now hg hd, hp]
    refine ⟨?_, rfl⟩
    show s.totalVolume + volumeThisSecond ((count - s.lastPulseCount : Nat) : ℚ) = _
    rw [hcast]
    rfl
  · have h0 : pulsesThisSecond { s with pulseCount := count } = 0 :=
      Nat.eq_zero_of_not_pos hd
    rw [calculateFlow_of_no_pulses _ now hg h0]
    refine ⟨?_, rfl⟩
    have hz : (count : ℚ) - (s.lastPulseCount : ℚ) = 0 := by
      rw [← hcast, ← hp, h0]
      rfl
    show s.totalVolume = _
    rw [hz]
    simp

theorem ticks_totalVolume (l : List (Nat × Nat)) :
    ∀ s : State, ticksPass s l →
      (ticks s l).totalVolume
        = s.totalVolume
          + (((ticks s l).lastPulseCount : ℚ) - (s.lastPulseCount : ℚ))
            / (CALIBRATION_FACTOR * 60) := by
  induction l with
  | nil =>
    intro s _
    show s.totalVolume = s.totalVolume + _
    simp [ticks]
  | cons hd rest ih =>
    intro s h
    obtain ⟨count, now⟩ := hd
    obtain ⟨hgate, hmono, hc, hrest⟩ := h
    have h1 := tick_spec s count now hgate hmono hc
    have h2 := ih (tick s count now) hrest
    show (ticks (tick s count now) rest).totalVolume = _
    rw [h2, h1.1, h1.2]
    show _ = s.totalVolume
      + (((ticks (tick s count now) rest).lastPulseCount : ℚ) - (s.lastPulseCount : ℚ))
        / (CALIBRATION_FACTOR * 60)
    ring

theorem ticks_lastPulseCount (l : List (Nat × Nat)) :
    ∀ s : State, ticksPass s l →
      (ticks s l).lastPulseCount = (l.getLast?.map Prod.fst).getD s.lastPulseCount := by
  induction l with
  | nil => intro s _; rfl
  | cons hd rest ih =>
    intro s h
    obtain ⟨count, now⟩ := hd
    obtain ⟨hgate, hmono, hc, hrest⟩ := h
    have h1 := tick_spec s count now hgate hmono hc
    have h2 := ih (tick s count now) hrest
    show (ticks (tick s count now) rest).lastPulseCount = _
    rw [h2, h1.2]
    cases rest with
    | nil => rfl
    | cons r rs =>
      obtain ⟨x, hx⟩ : ∃ x, (r :: rs).getLast? = some x :=
        ⟨_, List.getLast?_eq_getLast _ (List.cons_ne_nil r rs)⟩
      simp [List.getLast?_cons_cons, hx]

theorem tick_lastPulseCount (s : State) (count now : Nat)
    (hgate : intervalElapsed s now) : (tick s count now).lastPulseCount = count := by
  have hg : intervalElapsed { s with pulseCount := count } now := hgate
  unfold tick
  by_cases hd : 0 < pulsesThisSecond { s with pulseCount := count }
  · rw [calculateFlow_of_pulses _ now hg hd]
  · rw [calculateFlow_of_no_pulses _ now hg (Nat.eq_zero_of_not_pos hd)]

/-- C19. Pulse conservation across ticks: along every sequence of
`calculateFlow` ticks that each pass the interval gate, with the counter
values observed being 32-bit values that never fall below the previous-count
memory, the total increase of `totalVolume` is
`(c_n - c_0) / (CALIBRATION_FACTOR * 60)`, where `c_0` is the previous-count
memory at the start and `c_n` the last counter value observed. Two such
sequences ending at the same counter value add the same volume, and after each
tick that passes the gate the previous-count memory is the value observed. -/
theorem C19_pulse_conservation (s : State) (l : List (Nat × Nat))
    (hpass : ticksPass s l) :
    (ticks s l).totalVolume - s.totalVolume
      = ((((l.getLast?.map Prod.fst).getD s.lastPulseCount : Nat) : ℚ)
          - (s.lastPulseCount : ℚ)) / (CALIBRATION_FACTOR * 60) ∧
    (ticks s l).lastPulseCount = (l.getLast?.map Prod.fst).getD s.lastPulseCount ∧
    (∀ l2 : List (Nat × Nat), ticksPass s l2 →
      l2.getLast?.map Prod.fst = l.getLast?.map Prod.fst →
      (ticks s l2).totalVolume = (ticks s l).totalVolume) ∧
    (∀ (s1 : State) (count now : Nat), intervalElapsed s1 now →
      (tick s1 count now).lastPulseCount = count) := by
  have hv := ticks_totalVolume l s hpass
  have hl := ticks_lastPulseCount l s hpass
  refine ⟨?_, hl, ?_, tick_lastPulseCount⟩
  · rw [hv, hl]
    ring
  · intro l2 hpass2 hlast
    have hv2 := ticks_totalVolume l2 s hpass2
    have hl2 := ticks_lastPulseCount l2 s hpass2
    rw [hv2, hv, hl2, hl, hlast]

theorem C19_pulse_conservation_witness :
    ticksPass (pulsesCounted 0) [(15, 1000), (15, 2000), (75, 3000)] ∧
    (ticks (pulsesCounted 0) [(15, 1000), (15, 2000), (75, 3000)]).totalVolume
        - (pulsesCounted 0).totalVolume
      = (((75 : Nat) : ℚ) - ((0 : Nat) : ℚ)) / (CALIBRATION_FACTOR * 60) ∧
    (ticks (pulsesCounted 0) [(15, 1000), (15, 2000), (75, 3000)]).lastPulseCount = 75 :=
  have hpass : ticksPass (pulsesCounted 0) [(15, 1000), (15, 2000), (75, 3000)] :=
    ⟨by decide, by decide, by decide, by decide, by decide, by decide,
      by decide, by decide, by decide, trivial⟩
  have h := C19_pulse_conservation (pulsesCounted 0)
    [(15, 1000), (15, 2000), (75, 3000)] hpass
  ⟨hpass, h.1, h.2.1⟩

/-! ## Counter wraparound -/

theorem sub32_add_mod (p n : Nat) (hn : n < 4294967296) :
    sub32 ((p + n) % 4294967296) p = n := by
  unfold sub32
  omega

theorem pulseCounterTimes_lastPulseCount (times : List Nat) :
    ∀ s : State, (pulseCounterTimes s times).lastPulseCount = s.lastPulseCount := by
  induction times with
  | nil => intro s; rfl
  | cons t rest ih =>
    intro s
    rw [pulseCounterTimes_cons, ih (pulseCounter s t)]
    rfl

/-- C20. Wraparound-safe delta: the pulse delta is
`(pulseCount - lastPulseCount) mod 2 ^ 32`, so when the counter holds
`(p + n) mod 2 ^ 32` for a previous count `p` and `n < 2 ^ 32` pulses since
the previous tick, the delta is `n`, also when the counter has wrapped past
zero; in particular after `n` calls of the pulse handler since the previous
tick the delta is `n`. -/
theorem C20_wraparound_delta (s : State) (n : Nat)
    (hn : n < 4294967296)
    (hcount : s.pulseCount = (s.lastPulseCount + n) % 4294967296) :
    pulsesThisSecond s
      = (s.pulseCount + (4294967296 - s.lastPulseCount % 4294967296)) % 4294967296 ∧
    pulsesThisSecond s = n ∧
    (∀ (s0 : State) (times : List Nat),
      s0.pulseCount = s0.lastPulseCount → s0.lastPulseCount < 4294967296 →
      times.length < 4294967296 →
      pulsesThisSecond (pulseCounterTimes s0 times) = times.length) := by
  refine ⟨rfl, ?_, ?_⟩
  · unfold pulsesThisSecond
    rw [hcount]
    exact sub32_add_mod s.lastPulseCount n hn
  · intro s0 times heq hlt hlen
    have hc : s0.pulseCount < 4294967296 := by rw [heq]; exact hlt
    unfold pulsesThisSecond
    rw [pulseCounterTimes_pulseCount times s0 hc, pulseCounterTimes_lastPulseCount, heq]
    exact sub32_add_mod s0.lastPulseCount times.length hlen

theorem C20_wraparound_delta_witness :
    wrappedCounter.lastPulseCount < 4294967296 ∧
    (10 : Nat) < 4294967296 ∧
    wrappedCounter.pulseCount = (wrappedCounter.lastPulseCount + 10) % 4294967296 ∧
    wrappedCounter.pulseCount < wrappedCounter.lastPulseCount ∧
    pulsesThisSecond wrappedCounter = 10 :=
  ⟨by decide, by decide, by decide, by decide,
    (C20_wraparound_delta wrappedCounter 10 (by decide) (by decide)).2.1⟩

/-! ## Bounded unsaved volume -/

theorem periodicSave_cases (s : State) (now t1 t2 : Nat) :
    (periodicSave s now t1 t2 = s ∧
      ¬ |s.totalVolume - s.lastSavedVolume| ≥ SAVE_THRESHOLD) ∨
    periodicSave s now t1 t2 = saveTotalVolume s t1 ∨
    periodicSave s now t1 t2 = saveTotalVolume s t2 ∨
    periodicSave s now t1 t2 = saveTotalVolume (saveTotalVolume s t1) t2 := by
  unfold periodicSave
  by_cases hA : |s.totalVolume - s.lastSavedVolume| ≥ SAVE_THRESHOLD
  · simp only [hA, if_true]
    split_ifs
    · right; right; right; rfl
    · right; left; rfl
  · simp only [hA, if_false]
    split_ifs
    · right; right; left; rfl
    · left; exact ⟨rfl, not_false⟩

theorem SAVE_THRESHOLD_pos : (0 : ℚ) < SAVE_THRESHOLD := by
  norm_num [SAVE_THRESHOLD]

theorem saveTotalVolume_saved (s : State) (t : Nat) :
    (saveTotalVolume s t).lastSavedVolume = (saveTotalVolume s t).totalVolume ∧
    (saveTotalVolume s t).prefs.totalVolume = some (saveTotalVolume s t).totalVolume :=
  ⟨rfl, rfl⟩

theorem periodicSave_saved_or_unchanged (s : State) (now t1 t2 : Nat) :
    (periodicSave s now t1 t2 = s ∧
      ¬ |s.totalVolume - s.lastSavedVolume| ≥ SAVE_THRESHOLD) ∨
    ((periodicSave s now t1 t2).lastSavedVolume = (periodicSave s now t1 t2).totalVolume ∧
      (periodicSave s now t1 t2).prefs.totalVolume
        = some (periodicSave s now t1 t2).totalVolume) := by
  rcases periodicSave_cases s now t1 t2 with h | h | h | h
  · left; exact h
  · right; rw [h]; exact saveTotalVolume_saved s t1
  · right; rw [h]; exact saveTotalVolume_saved s t2
  · right; rw [h]; exact saveTotalVolume_saved (saveTotalVolume s t1) t2

theorem periodicSave_unsaved_lt (s : State) (now t1 t2 : Nat) :
    |(periodicSave s now t1 t2).totalVolume - (periodicSave s now t1 t2).lastSavedVolume|
      < SAVE_THRESHOLD := by
  rcases periodicSave_saved_or_unchanged s now t1 t2 with h | h
  · rw [h.1]
    exact not_le.mp h.2
  · rw [h.1, sub_self, abs_zero]
    exact SAVE_THRESHOLD_pos

theorem shouldReportFlow_lastSavedVolume (s : State) (f v : ℚ) (b now : Nat) :
    (shouldReportFlow s f v b now).2.lastSavedVolume = s.lastSavedVolume := by
  unfold shouldReportFlow sendFlowReport
  split_ifs <;> rfl

theorem loadTotalVolume_totalVolume (s : State) :
    (loadTotalVolume s).totalVolume = s.prefs.getFloat_totalVolume 0 := rfl

/-- C21. Bounded unsaved volume: for every state and all clock readings, after
`periodicSave` returns, `|totalVolume - lastSavedVolume| < SAVE_THRESHOLD`
(1.0); whenever it wrote to the store, the stored volume and
`lastSavedVolume` both equal `totalVolume`. The bound also holds at the end
of a whole `loop()` pass, and when `lastSavedVolume` mirrored the store before
the call, the volume a restart would load differs from `totalVolume` by less
than the threshold. -/
theorem C21_bounded_unsaved_volume (s : State) (now t1 t2 : Nat) :
    |(periodicSave s now t1 t2).totalVolume - (periodicSave s now t1 t2).lastSavedVolume|
      < SAVE_THRESHOLD ∧
    (s.prefs.puts < (periodicSave s now t1 t2).prefs.puts →
      (periodicSave s now t1 t2).prefs.totalVolume
        = some (periodicSave s now t1 t2).totalVolume ∧
      (periodicSave s now t1 t2).lastSavedVolume
        = (periodicSave s now t1 t2).totalVolume) ∧
    (s.prefs.getFloat_totalVolume 0 = s.lastSavedVolume →
      |(periodicSave s now t1 t2).totalVolume
          - (loadTotalVolume (periodicSave s now t1 t2)).totalVolume| < SAVE_THRESHOLD) ∧
    (∀ c : LoopClock,
      |(loop s c).totalVolume - (loop s c).lastSavedVolume| < SAVE_THRESHOLD) ∧
    SAVE_THRESHOLD = 1 := by
  refine ⟨periodicSave_unsaved_lt s now t1 t2, ?_, ?_, ?_, by norm_num [SAVE_THRESHOLD]⟩
  · intro hput
    rcases periodicSave_saved_or_unchanged s now t1 t2 with h | h
    · rw [h.1] at hput
      exact absurd hput (lt_irrefl _)
    · exact ⟨h.2, h.1⟩
  · intro hmirror
    rw [loadTotalVolume_totalVolume]
    rcases periodicSave_saved_or_unchanged s now t1 t2 with h | h
    · rw [h.1, hmirror]
      exact not_le.mp h.2
    · have hload : (periodicSave s now t1 t2).prefs.getFloat_totalVolume 0
          = (periodicSave s now t1 t2).totalVolume := by
        unfold Preferences.getFloat_totalVolume
        rw [h.2]
        rfl
      rw [hload, sub_self, abs_zero]
      exact SAVE_THRESHOLD_pos
  · intro c
    have hsave := periodicSave_unsaved_lt (calculateFlow s c.tCalc)
      c.tSave c.tSave1 c.tSave2
    unfold loop
    simp only []
    split_ifs
    · rw [shouldReportFlow_totalVolume, shouldReportFlow_lastSavedVolume]
      exact hsave
    · exact hsave

end WaterFlow
